import Mathlib

/-!
Shallow embedding of the TradeStation API wrapper classes
(Accounts in src/accounts.jsx; Orders, Symbols, MarketData in the second
source file).  Every wrapper method is modeled by two definitions:

* a `<method>_request` definition building the outgoing request exactly as
  the source does (URL template concatenation, headers object, axios
  `params` map, `responseType`, request body), and
* a `<method>` definition combining that request with an abstract
  `transport` (the axios network layer, an external collaborator) and the
  method's `.then` success handler and `.catch` / try-catch error handler.

JavaScript values appearing in the wrappers are modeled by `JSValue`
(undefined, null, strings, numbers, booleans, objects, opaque stream
handles).  JavaScript semantics used by the source are modeled explicitly:
template-literal interpolation (`jsToString`, where undefined prints as
"undefined"), truthiness (`truthy`), default parameter values applied when
an argument is undefined (`jsDefault`), and property access returning
undefined for a missing key (`JSValue.getField`).  Axios drops `params`
entries whose value is undefined or null when serializing the query string
(`axiosEffectiveParams`).  `new Date().toISOString()` is modeled by an
explicit `now : String` argument representing the serialized call time.
-/

inductive JSValue where
  | undef
  | nullv
  | str (s : String)
  | num (n : Int)
  | boolv (b : Bool)
  | obj (fields : List (String × JSValue))
  | stream (id : Nat)

/-- JavaScript string conversion as used by template literals and by the
axios query serializer: undefined prints as the literal "undefined". -/
def jsToString : JSValue → String
  | .undef => "undefined"
  | .nullv => "null"
  | .str s => s
  | .num n => toString n
  | .boolv b => if b then "true" else "false"
  | .obj _ => "[object Object]"
  | .stream _ => "[object Object]"

/-- JavaScript truthiness, as used by `symbol ? { symbol } : {}`. -/
def truthy : JSValue → Bool
  | .undef => false
  | .nullv => false
  | .str s => !(s == "")
  | .num n => !(n == 0)
  | .boolv b => b
  | .obj _ => true
  | .stream _ => true

/-- JavaScript default parameter semantics: the default applies exactly
when the supplied argument is undefined. -/
def jsDefault (v d : JSValue) : JSValue :=
  match v with
  | .undef => d
  | w => w

/-- First-match association lookup over object fields. -/
def lookupField : List (String × JSValue) → String → JSValue
  | [], _ => .undef
  | p :: t, k => if p.1 == k then p.2 else lookupField t k

/-- JavaScript property access: a missing key (or access on a non-object)
yields undefined. -/
def JSValue.getField : JSValue → String → JSValue
  | .obj fs, k => lookupField fs k
  | _, _ => (.undef)

/-- Whether an object value carries the given key. -/
def JSValue.hasField : JSValue → String → Bool
  | .obj fs, k => fs.any (fun p => p.1 == k)
  | _, _ => false

/-- A JavaScript Error value; only the message is relevant to the source,
which wraps some failures in a new Error with a templated message. -/
structure JSError where
  message : String

/-- The outgoing HTTP request an axios call issues: verb, fully built URL,
headers object, the axios `params` map (values still raw JS values),
the `responseType` option when given, and the request body for write
verbs. -/
structure Request where
  verb : String
  url : String
  headers : List (String × String)
  params : List (String × JSValue)
  responseType : Option String
  body : Option JSValue

/-- First-match association lookup over a params map. -/
def lookupParam : List (String × JSValue) → String → Option JSValue
  | [], _ => none
  | p :: t, k => if p.1 == k then some p.2 else lookupParam t k

/-- Look up a key in the axios `params` map of a request. -/
def Request.param (r : Request) (k : String) : Option JSValue :=
  lookupParam r.params k

/-- Axios query-string serialization of a `params` map: entries whose value
is undefined or null are omitted entirely; the rest are stringified. -/
def axiosEffectiveParams (ps : List (String × JSValue)) : List (String × String) :=
  ps.filterMap (fun p =>
    match p.2 with
    | .undef => none
    | .nullv => none
    | v => some (p.1, jsToString v))

/-- The effective query parameters of a request after axios serialization. -/
def Request.effectiveQuery (r : Request) : List (String × String) :=
  axiosEffectiveParams r.params

/-- The axios network layer, an external collaborator: maps a request to
either the resolved response object (a JS value whose `data` field holds
the parsed body or the open stream) or a transport/HTTP error. -/
abbrev Transport := Request → Except JSError JSValue

/-- A wrapper method call: issue the request through the transport, apply
the `.then` success handler on fulfillment, apply the `.catch` (or
try-catch) handler on rejection.  Every handler in the source rethrows, so
rejection always produces an error result. -/
def axiosCall (transport : Transport) (req : Request)
    (onFulfilled : JSValue → JSValue) (onRejected : JSError → JSError) :
    Except JSError JSValue :=
  match transport req with
  | .ok response => .ok (onFulfilled response)
  | .error e => .error (onRejected e)

namespace Accounts

def baseUrl : String := "https://api.tradestation.com/v3/brokerage"

def getAccounts_request (token : String) : Request :=
  { verb := "GET"
    url := baseUrl ++ "/accounts"
    headers := [("Authorization", "Bearer " ++ token)]
    params := []
    responseType := none
    body := none }

def getAccounts (token : String) (transport : Transport) : Except JSError JSValue :=
  axiosCall transport (getAccounts_request token)
    (fun response => (response.getField "data").getField "Accounts")
    (fun e => e)

def getAccountBalances_request (token accountIds : String) : Request :=
  { verb := "GET"
    url := baseUrl ++ "/accounts/" ++ accountIds ++ "/balances"
    headers := [("Authorization", "Bearer " ++ token)]
    params := []
    responseType := none
    body := none }

def getAccountBalances (token accountIds : String) (transport : Transport) :
    Except JSError JSValue :=
  axiosCall transport (getAccountBalances_request token accountIds)
    (fun response => (response.getField "data").getField "Balances")
    (fun e => e)

def getBalancesBOD_request (token accountIds : String) : Request :=
  { verb := "GET"
    url := baseUrl ++ "/accounts/" ++ accountIds ++ "/bodbalances"
    headers := [("Authorization", "Bearer " ++ token)]
    params := []
    responseType := none
    body := none }

def getBalancesBOD (token accountIds : String) (transport : Transport) :
    Except JSError JSValue :=
  axiosCall transport (getBalancesBOD_request token accountIds)
    (fun response => (response.getField "data").getField "BODBalances")
    (fun e => e)

def getHistoricalOrders_request (token accounts : String)
    (since pageSize nextToken : JSValue) : Request :=
  { verb := "GET"
    url := baseUrl ++ "/accounts/" ++ accounts ++ "/historicalorders"
    headers := [("Authorization", "Bearer " ++ token)]
    params := [("since", since),
               ("pageSize", jsDefault pageSize (.num 600)),
               ("nextToken", jsDefault nextToken .nullv)]
    responseType := none
    body := none }

def getHistoricalOrders (token accounts : String)
    (since pageSize nextToken : JSValue) (transport : Transport) :
    Except JSError JSValue :=
  axiosCall transport (getHistoricalOrders_request token accounts since pageSize nextToken)
    (fun response => response.getField "data")
    (fun e => e)

def getHistoricalOrdersByOrderID_request (token accounts orderIds : String)
    (since : JSValue) : Request :=
  { verb := "GET"
    url := baseUrl ++ "/accounts/" ++ accounts ++ "/historicalorders/" ++ orderIds
             ++ "?since=" ++ jsToString since
    headers := [("Authorization", "Bearer " ++ token)]
    params := []
    responseType := none
    body := none }

def getHistoricalOrdersByOrderID (token accounts orderIds : String)
    (since : JSValue) (transport : Transport) : Except JSError JSValue :=
  axiosCall transport (getHistoricalOrdersByOrderID_request token accounts orderIds since)
    (fun response => response.getField "data")
    (fun e => e)

def getOrders_request (token accounts : String) (pageSize nextToken : JSValue) : Request :=
  { verb := "GET"
    url := baseUrl ++ "/accounts/" ++ accounts ++ "/orders"
    headers := [("Authorization", "Bearer " ++ token)]
    params := [("pageSize", jsDefault pageSize (.num 600)),
               ("nextToken", nextToken)]
    responseType := none
    body := none }

def getOrders (token accounts : String) (pageSize nextToken : JSValue)
    (transport : Transport) : Except JSError JSValue :=
  axiosCall transport (getOrders_request token accounts pageSize nextToken)
    (fun response => (response.getField "data").getField "Orders")
    (fun e => e)

def getOrdersByOrderID_request (token accountIds orderIds : String) : Request :=
  { verb := "GET"
    url := baseUrl ++ "/accounts/" ++ accountIds ++ "/orders/" ++ orderIds
    headers := [("Authorization", "Bearer " ++ token)]
    params := []
    responseType := none
    body := none }

def getOrdersByOrderID (token accountIds orderIds : String) (transport : Transport) :
    Except JSError JSValue :=
  axiosCall transport (getOrdersByOrderID_request token accountIds orderIds)
    (fun response => (response.getField "data").getField "Orders")
    (fun e => e)

def getPositions_request (token accounts : String) (symbol : JSValue) : Request :=
  { verb := "GET"
    url := baseUrl ++ "/accounts/" ++ accounts ++ "/positions"
    headers := [("Authorization", "Bearer " ++ token)]
    params := if truthy symbol then [("symbol", symbol)] else []
    responseType := none
    body := none }

def getPositions (token accounts : String) (symbol : JSValue)
    (transport : Transport) : Except JSError JSValue :=
  axiosCall transport (getPositions_request token accounts symbol)
    (fun response => (response.getField "data").getField "Positions")
    (fun e => e)

def getWallets_request (token accountID : String) : Request :=
  { verb := "GET"
    url := baseUrl ++ "/accounts/" ++ accountID ++ "/wallets"
    headers := [("Authorization", "Bearer " ++ token)]
    params := []
    responseType := none
    body := none }

def getWallets (token accountID : String) (transport : Transport) :
    Except JSError JSValue :=
  axiosCall transport (getWallets_request token accountID)
    (fun response => (response.getField "data").getField "Wallets")
    (fun e => e)

def streamWallets_request (token account : String) : Request :=
  { verb := "GET"
    url := baseUrl ++ "/stream/accounts/" ++ account ++ "/wallets"
    headers := [("Authorization", "Bearer " ++ token),
                ("Accept", "application/vnd.tradestation.streams.v2+json")]
    params := []
    responseType := some "stream"
    body := none }

def streamWallets (token account : String) (transport : Transport) :
    Except JSError JSValue :=
  axiosCall transport (streamWallets_request token account)
    (fun response => response.getField "data")
    (fun e => e)

def streamOrders_request (token accountIds : String) : Request :=
  { verb := "GET"
    url := baseUrl ++ "/stream/accounts/" ++ accountIds ++ "/orders"
    headers := [("Authorization", "Bearer " ++ token)]
    params := []
    responseType := some "stream"
    body := none }

/-- The success handler of streamOrders attaches a console-logging data
listener to the response stream (a side effect) and returns nothing, so the
promise is fulfilled with undefined. -/
def streamOrders (token accountIds : String) (transport : Transport) :
    Except JSError JSValue :=
  axiosCall transport (streamOrders_request token accountIds)
    (fun _ => .undef)
    (fun e => e)

def streamOrdersByOrderId_request (token accountIds ordersIds : String) : Request :=
  { verb := "GET"
    url := baseUrl ++ "/stream/accounts/" ++ accountIds ++ "/orders/" ++ ordersIds
    headers := [("Authorization", "Bearer " ++ token)]
    params := []
    responseType := none
    body := none }

def streamOrdersByOrderId (token accountIds ordersIds : String)
    (transport : Transport) : Except JSError JSValue :=
  axiosCall transport (streamOrdersByOrderId_request token accountIds ordersIds)
    (fun response => (response.getField "data").getField "Orders")
    (fun e => e)

def streamPositions_request (token accountIds : String) (changes : JSValue) : Request :=
  { verb := "GET"
    url := baseUrl ++ "/stream/accounts/" ++ accountIds ++ "/positions"
    headers := [("Authorization", "Bearer " ++ token)]
    params := [("changes", jsDefault changes (.boolv false))]
    responseType := none
    body := none }

def streamPositions (token accountIds : String) (changes : JSValue)
    (transport : Transport) : Except JSError JSValue :=
  axiosCall transport (streamPositions_request token accountIds changes)
    (fun response => response.getField "data")
    (fun e => e)

end Accounts

namespace Orders

def baseUrl : String := "https://api.tradestation.com/v3/orderexecution"

def confirmOrder_request (token : String) (order : JSValue) : Request :=
  { verb := "POST"
    url := baseUrl ++ "/orderconfirm"
    headers := [("Authorization", "Bearer " ++ token),
                ("Content-Type", "application/json")]
    params := []
    responseType := none
    body := some order }

def confirmOrder (token : String) (order : JSValue) (transport : Transport) :
    Except JSError JSValue :=
  axiosCall transport (confirmOrder_request token order)
    (fun response => (response.getField "data").getField "Confirmations")
    (fun e => e)

def confirmGroupOrder_request (token : String) (groupOrder : JSValue) : Request :=
  { verb := "POST"
    url := baseUrl ++ "/ordergroupconfirm"
    headers := [("Authorization", "Bearer " ++ token),
                ("Content-Type", "application/json")]
    params := []
    responseType := none
    body := some groupOrder }

def confirmGroupOrder (token : String) (groupOrder : JSValue) (transport : Transport) :
    Except JSError JSValue :=
  axiosCall transport (confirmGroupOrder_request token groupOrder)
    (fun response => (response.getField "data").getField "OrderConfirmResponses")
    (fun e => e)

def placeGroupOrder_request (token : String) (groupOrder : JSValue) : Request :=
  { verb := "POST"
    url := baseUrl ++ "/ordergroups"
    headers := [("Authorization", "Bearer " ++ token),
                ("Content-Type", "application/json")]
    params := []
    responseType := none
    body := some groupOrder }

def placeGroupOrder (token : String) (groupOrder : JSValue) (transport : Transport) :
    Except JSError JSValue :=
  axiosCall transport (placeGroupOrder_request token groupOrder)
    (fun response => (response.getField "data").getField "Orders")
    (fun e => e)

def placeOrder_request (token : String) (order : JSValue) : Request :=
  { verb := "POST"
    url := baseUrl ++ "/orders"
    headers := [("Authorization", "Bearer " ++ token),
                ("Content-Type", "application/json")]
    params := []
    responseType := none
    body := some order }

def placeOrder (token : String) (order : JSValue) (transport : Transport) :
    Except JSError JSValue :=
  axiosCall transport (placeOrder_request token order)
    (fun response => (response.getField "data").getField "Orders")
    (fun e => e)

def replaceOrder_request (token orderID : String) (replacementOrder : JSValue) : Request :=
  { verb := "PUT"
    url := baseUrl ++ "/orders/" ++ orderID
    headers := [("Authorization", "Bearer " ++ token),
                ("Content-Type", "application/json")]
    params := []
    responseType := none
    body := some replacementOrder }

def replaceOrder (token orderID : String) (replacementOrder : JSValue)
    (transport : Transport) : Except JSError JSValue :=
  axiosCall transport (replaceOrder_request token orderID replacementOrder)
    (fun response => response.getField "data")
    (fun e => e)

def getActivationTriggers_request (token : String) : Request :=
  { verb := "GET"
    url := baseUrl ++ "/activationtriggers"
    headers := [("Authorization", "Bearer " ++ token)]
    params := []
    responseType := none
    body := none }

def getActivationTriggers (token : String) (transport : Transport) :
    Except JSError JSValue :=
  axiosCall transport (getActivationTriggers_request token)
    (fun response => (response.getField "data").getField "ActivationTriggers")
    (fun e => e)

def getRoutes_request (token : String) : Request :=
  { verb := "GET"
    url := baseUrl ++ "/routes"
    headers := [("Authorization", "Bearer " ++ token)]
    params := []
    responseType := none
    body := none }

def getRoutes (token : String) (transport : Transport) : Except JSError JSValue :=
  axiosCall transport (getRoutes_request token)
    (fun response => (response.getField "data").getField "Routes")
    (fun e => e)

end Orders

namespace Symbols

def baseUrl : String := "https://api.tradestation.com/v2/data/symbols"

def suggestSymbols_request (token text : String) (top filter : JSValue) : Request :=
  { verb := "GET"
    url := baseUrl ++ "/suggest/" ++ text
    headers := [("Authorization", "Bearer " ++ token)]
    params := [("$top", top), ("$filter", filter)]
    responseType := none
    body := none }

/-- suggestSymbols returns the axios promise directly (no then or catch),
so the caller receives the whole response object on success and the
original error on failure. -/
def suggestSymbols (token text : String) (top filter : JSValue)
    (transport : Transport) : Except JSError JSValue :=
  axiosCall transport (suggestSymbols_request token text top filter)
    (fun response => response)
    (fun e => e)

def searchSymbols_request (token criteria : String) : Request :=
  { verb := "GET"
    url := baseUrl ++ "/search/" ++ criteria
    headers := [("Authorization", "Bearer " ++ token)]
    params := []
    responseType := none
    body := none }

def searchSymbols (token criteria : String) (transport : Transport) :
    Except JSError JSValue :=
  axiosCall transport (searchSymbols_request token criteria)
    (fun response => response)
    (fun e => e)

end Symbols

namespace MarketData

def baseUrl : String := "https://api.tradestation.com/v3/marketdata"

/-- getBars reassigns lastdate to new Date().toISOString() when the
argument is undefined; the serialized call time is the `now` argument. -/
def getBars_request (token symbol : String)
    (interval unit barsback firstdate lastdate sessiontemplate : JSValue)
    (now : String) : Request :=
  { verb := "GET"
    url := baseUrl ++ "/barcharts/" ++ symbol
    headers := [("Authorization", "Bearer " ++ token)]
    params := [("interval", jsDefault interval (.str "1")),
               ("unit", jsDefault unit (.str "Daily")),
               ("barsback", jsDefault barsback (.str "1")),
               ("firstdate", firstdate),
               ("lastdate", jsDefault lastdate (.str now)),
               ("sessiontemplate", sessiontemplate)]
    responseType := none
    body := none }

def getBars (token symbol : String)
    (interval unit barsback firstdate lastdate sessiontemplate : JSValue)
    (now : String) (transport : Transport) : Except JSError JSValue :=
  axiosCall transport
    (getBars_request token symbol interval unit barsback firstdate lastdate sessiontemplate now)
    (fun response => response.getField "data")
    (fun e => { message := "Error fetching bars: " ++ e.message })

def streamBars_request (token symbol : String)
    (interval unit barsback sessiontemplate : JSValue) : Request :=
  { verb := "GET"
    url := baseUrl ++ "/stream/barcharts/" ++ symbol
    headers := [("Authorization", "Bearer " ++ token),
                ("Accept", "application/vnd.tradestation.streams.v2+json")]
    params := [("interval", jsDefault interval (.str "1")),
               ("unit", jsDefault unit (.str "Daily")),
               ("barsback", jsDefault barsback (.str "1")),
               ("sessiontemplate", sessiontemplate)]
    responseType := some "stream"
    body := none }

def streamBars (token symbol : String)
    (interval unit barsback sessiontemplate : JSValue) (transport : Transport) :
    Except JSError JSValue :=
  axiosCall transport (streamBars_request token symbol interval unit barsback sessiontemplate)
    (fun response => response)
    (fun e => e)

def getCryptoSymbolNames_request (token : String) : Request :=
  { verb := "GET"
    url := baseUrl ++ "/symbollists/cryptopairs/symbolnames"
    headers := [("Authorization", "Bearer " ++ token)]
    params := []
    responseType := none
    body := none }

def getCryptoSymbolNames (token : String) (transport : Transport) :
    Except JSError JSValue :=
  axiosCall transport (getCryptoSymbolNames_request token)
    (fun response => (response.getField "data").getField "SymbolNames")
    (fun e => { message := "Error fetching crypto symbol names: " ++ e.message })

def getSymbolDetails_request (token symbols : String) : Request :=
  { verb := "GET"
    url := baseUrl ++ "/symbols/" ++ symbols
    headers := [("Authorization", "Bearer " ++ token)]
    params := []
    responseType := none
    body := none }

def getSymbolDetails (token symbols : String) (transport : Transport) :
    Except JSError JSValue :=
  axiosCall transport (getSymbolDetails_request token symbols)
    (fun response => response.getField "data")
    (fun e => { message := "Error fetching symbol details: " ++ e.message })

def getOptionExpirations_request (token underlying : String)
    (strikePrice : JSValue) : Request :=
  { verb := "GET"
    url := baseUrl ++ "/options/expirations/" ++ underlying
    headers := [("Authorization", "Bearer " ++ token)]
    params := if truthy (jsDefault strikePrice .nullv)
              then [("strikePrice", jsDefault strikePrice .nullv)] else []
    responseType := none
    body := none }

def getOptionExpirations (token underlying : String) (strikePrice : JSValue)
    (transport : Transport) : Except JSError JSValue :=
  axiosCall transport (getOptionExpirations_request token underlying strikePrice)
    (fun response => (response.getField "data").getField "Expirations")
    (fun e => { message := "Error fetching option expirations: " ++ e.message })

def getOptionRiskReward_request (token : String) (riskRewardInput : JSValue) : Request :=
  { verb := "POST"
    url := baseUrl ++ "/options/riskreward"
    headers := [("Content-Type", "application/json"),
                ("Authorization", "Bearer " ++ token)]
    params := []
    responseType := none
    body := some riskRewardInput }

def getOptionRiskReward (token : String) (riskRewardInput : JSValue)
    (transport : Transport) : Except JSError JSValue :=
  axiosCall transport (getOptionRiskReward_request token riskRewardInput)
    (fun response => response.getField "data")
    (fun e => { message := "Error analyzing option risk vs. reward: " ++ e.message })

def getOptionSpreadTypes_request (token : String) : Request :=
  { verb := "GET"
    url := baseUrl ++ "/options/spreadtypes"
    headers := [("Authorization", "Bearer " ++ token)]
    params := []
    responseType := none
    body := none }

def getOptionSpreadTypes (token : String) (transport : Transport) :
    Except JSError JSValue :=
  axiosCall transport (getOptionSpreadTypes_request token)
    (fun response => (response.getField "data").getField "SpreadTypes")
    (fun e => { message := "Error fetching option spread types: " ++ e.message })

def getOptionStrikes_request (token underlying : String)
    (spreadType strikeInterval expiration expiration2 : JSValue) : Request :=
  { verb := "GET"
    url := baseUrl ++ "/options/strikes/" ++ underlying
    headers := [("Authorization", "Bearer " ++ token)]
    params := [("spreadType", jsDefault spreadType (.str "Single")),
               ("strikeInterval", jsDefault strikeInterval (.num 1)),
               ("expiration", expiration),
               ("expiration2", expiration2)]
    responseType := none
    body := none }

def getOptionStrikes (token underlying : String)
    (spreadType strikeInterval expiration expiration2 : JSValue)
    (transport : Transport) : Except JSError JSValue :=
  axiosCall transport
    (getOptionStrikes_request token underlying spreadType strikeInterval expiration expiration2)
    (fun response =>
      .obj [("SpreadType", (response.getField "data").getField "SpreadType"),
            ("Strikes", (response.getField "data").getField "Strikes")])
    (fun e => { message := "Error fetching option strikes: " ++ e.message })

def streamOptionChain_request (token underlying : String)
    (expiration expiration2 strikeProximity spreadType riskFreeRate priceCenter
     strikeInterval enableGreeks strikeRange optionType : JSValue) : Request :=
  { verb := "GET"
    url := baseUrl ++ "/stream/options/chains/" ++ underlying
    headers := [("Authorization", "Bearer " ++ token),
                ("Accept", "application/vnd.tradestation.streams.v2+json")]
    params := [("expiration", expiration),
               ("expiration2", expiration2),
               ("strikeProximity", jsDefault strikeProximity (.num 5)),
               ("spreadType", jsDefault spreadType (.str "Single")),
               ("riskFreeRate", riskFreeRate),
               ("priceCenter", priceCenter),
               ("strikeInterval", jsDefault strikeInterval (.num 1)),
               ("enableGreeks", jsDefault enableGreeks (.boolv true)),
               ("strikeRange", jsDefault strikeRange (.str "All")),
               ("optionType", jsDefault optionType (.str "All"))]
    responseType := some "stream"
    body := none }

def streamOptionChain (token underlying : String)
    (expiration expiration2 strikeProximity spreadType riskFreeRate priceCenter
     strikeInterval enableGreeks strikeRange optionType : JSValue)
    (transport : Transport) : Except JSError JSValue :=
  axiosCall transport
    (streamOptionChain_request token underlying expiration expiration2 strikeProximity
      spreadType riskFreeRate priceCenter strikeInterval enableGreeks strikeRange optionType)
    (fun response => response)
    (fun e => e)

/-- The first two arguments model the legs_0_Symbol and legs_0_Ratio
parameters of streamOptionQuotes. -/
def streamOptionQuotes_request (token : String)
    (legSym legQty riskFreeRate enableGreeks : JSValue) : Request :=
  { verb := "GET"
    url := baseUrl ++ "/stream/options/quotes"
    headers := [("Authorization", "Bearer " ++ token),
                ("Accept", "application/vnd.tradestation.streams.v2+json")]
    params := [("legs[0].Symbol", legSym),
               ("legs[0].Ratio", jsDefault legQty (.num 1)),
               ("riskFreeRate", riskFreeRate),
               ("enableGreeks", jsDefault enableGreeks (.boolv true))]
    responseType := some "stream"
    body := none }

def streamOptionQuotes (token : String)
    (legSym legQty riskFreeRate enableGreeks : JSValue) (transport : Transport) :
    Except JSError JSValue :=
  axiosCall transport
    (streamOptionQuotes_request token legSym legQty riskFreeRate enableGreeks)
    (fun response => response)
    (fun e => e)

def getQuoteSnapshots_request (token symbols : String) : Request :=
  { verb := "GET"
    url := baseUrl ++ "/quotes/" ++ symbols
    headers := [("Authorization", "Bearer " ++ token)]
    params := []
    responseType := none
    body := none }

def getQuoteSnapshots (token symbols : String) (transport : Transport) :
    Except JSError JSValue :=
  axiosCall transport (getQuoteSnapshots_request token symbols)
    (fun response => response)
    (fun e => e)

def streamQuoteChanges_request (token symbols : String) : Request :=
  { verb := "GET"
    url := baseUrl ++ "/stream/quotes/" ++ symbols
    headers := [("Authorization", "Bearer " ++ token),
                ("Accept", "application/vnd.tradestation.streams.v2+json")]
    params := []
    responseType := some "stream"
    body := none }

def streamQuoteChanges (token symbols : String) (transport : Transport) :
    Except JSError JSValue :=
  axiosCall transport (streamQuoteChanges_request token symbols)
    (fun response => response)
    (fun e => e)

def streamMarketDepthQuotes_request (token symbol : String) (maxLevels : JSValue) : Request :=
  { verb := "GET"
    url := baseUrl ++ "/stream/marketdepth/quotes/" ++ symbol
    headers := [("Authorization", "Bearer " ++ token),
                ("Accept", "application/vnd.tradestation.streams.v2+json")]
    params := [("maxlevels", jsDefault maxLevels (.num 20))]
    responseType := some "stream"
    body := none }

def streamMarketDepthQuotes (token symbol : String) (maxLevels : JSValue)
    (transport : Transport) : Except JSError JSValue :=
  axiosCall transport (streamMarketDepthQuotes_request token symbol maxLevels)
    (fun response => response)
    (fun e => e)

def streamMarketDepthAggregates_request (token symbol : String)
    (maxLevels : JSValue) : Request :=
  { verb := "GET"
    url := baseUrl ++ "/stream/marketdepth/aggregates/" ++ symbol
    headers := [("Authorization", "Bearer " ++ token),
                ("Accept", "application/vnd.tradestation.streams.v2+json")]
    params := [("maxlevels", jsDefault maxLevels (.num 20))]
    responseType := some "stream"
    body := none }

def streamMarketDepthAggregates (token symbol : String) (maxLevels : JSValue)
    (transport : Transport) : Except JSError JSValue :=
  axiosCall transport (streamMarketDepthAggregates_request token symbol maxLevels)
    (fun response => response)
    (fun e => e)

/-- streamTickBars hardcodes a v2 base URL and interpolates the interval
and barsBack arguments directly into the path. -/
def streamTickBars_request (token symbol : String) (interval barsBack : JSValue) : Request :=
  { verb := "GET"
    url := "https://api.tradestation.com/v2/stream/tickbars/" ++ symbol ++ "/"
             ++ jsToString interval ++ "/" ++ jsToString barsBack
    headers := [("Authorization", "Bearer " ++ token)]
    params := []
    responseType := none
    body := none }

def streamTickBars (token symbol : String) (interval barsBack : JSValue)
    (transport : Transport) : Except JSError JSValue :=
  axiosCall transport (streamTickBars_request token symbol interval barsBack)
    (fun response => response.getField "data")
    (fun e => e)

end MarketData

/-! ### Helper lemmas -/

theorem jsDefault_of_ne_undef (v d : JSValue) (h : v ≠ .undef) : jsDefault v d = v := by
  cases v with
  | undef => exact absurd rfl h
  | nullv => rfl
  | str s => rfl
  | num n => rfl
  | boolv b => rfl
  | obj fs => rfl
  | stream i => rfl

theorem lookupField_of_any_eq_false (fs : List (String × JSValue)) (k : String)
    (h : fs.any (fun p => p.1 == k) = false) : lookupField fs k = .undef := by
  induction fs with
  | nil => rfl
  | cons p t ih =>
      rw [List.any_cons, Bool.or_eq_false_iff] at h
      rw [lookupField, if_neg]
      · exact ih h.2
      · simp [h.1]

theorem getField_of_not_hasField (v : JSValue) (k : String)
    (h : v.hasField k = false) : v.getField k = .undef := by
  cases v with
  | obj fs => exact lookupField_of_any_eq_false fs k h
  | undef => rfl
  | nullv => rfl
  | str s => rfl
  | num n => rfl
  | boolv b => rfl
  | stream i => rfl

theorem getField_data_singleton (body : JSValue) :
    (JSValue.obj [("data", body)]).getField "data" = body := rfl

theorem axiosCall_ok {tr : Transport} {resp : JSValue} (h : ∀ r, tr r = .ok resp)
    (req : Request) (f : JSValue → JSValue) (g : JSError → JSError) :
    axiosCall tr req f g = .ok (f resp) := by
  unfold axiosCall
  rw [h]

theorem axiosCall_error {tr : Transport} {e : JSError} (h : ∀ r, tr r = .error e)
    (req : Request) (f : JSValue → JSValue) (g : JSError → JSError) :
    axiosCall tr req f g = .error (g e) := by
  unfold axiosCall
  rw [h]

/-! ### Claim theorems -/

/-- Claim C5: getPositions called with account string "12345" and the symbol
argument omitted issues a GET request to base/accounts/12345/positions with
an empty query-parameter map and, on a 2xx response, resolves to the
Positions field of the response body. -/
theorem getPositions_scenario (token : String) (resp : JSValue) :
    (Accounts.getPositions_request token "12345" .undef).verb = "GET" ∧
    (Accounts.getPositions_request token "12345" .undef).url =
      "https://api.tradestation.com/v3/brokerage/accounts/12345/positions" ∧
    (Accounts.getPositions_request token "12345" .undef).params = [] ∧
    Accounts.getPositions token "12345" .undef (fun _ => .ok resp) =
      .ok ((resp.getField "data").getField "Positions") :=
  ⟨rfl, rfl, rfl, rfl⟩

/-- Claim C6: getOptionStrikes called with underlying "AAPL" and every
optional argument omitted issues a GET request to base/options/strikes/AAPL
whose effective query parameters are exactly spreadType=Single and
strikeInterval=1, and on a 2xx response resolves to an object holding the
SpreadType and Strikes fields of the response body. -/
theorem getOptionStrikes_scenario (token : String) (resp : JSValue) :
    (MarketData.getOptionStrikes_request token "AAPL" .undef .undef .undef .undef).verb = "GET" ∧
    (MarketData.getOptionStrikes_request token "AAPL" .undef .undef .undef .undef).url =
      "https://api.tradestation.com/v3/marketdata/options/strikes/AAPL" ∧
    (MarketData.getOptionStrikes_request token "AAPL" .undef .undef .undef .undef).effectiveQuery =
      [("spreadType", "Single"), ("strikeInterval", "1")] ∧
    MarketData.getOptionStrikes token "AAPL" .undef .undef .undef .undef (fun _ => .ok resp) =
      .ok (.obj [("SpreadType", (resp.getField "data").getField "SpreadType"),
                 ("Strikes", (resp.getField "data").getField "Strikes")]) :=
  ⟨rfl, rfl, rfl, rfl⟩

/-- Claim C10: when the underlying request succeeds, streamOrders resolves
to undefined: its success handler attaches a console-logging data listener
to the response stream and returns nothing, so the caller never receives
the stream or the order data. -/
theorem streamOrders_resolves_undefined (token accountIds : String) (resp : JSValue) :
    Accounts.streamOrders token accountIds (fun _ => .ok resp) = .ok JSValue.undef :=
  rfl

/-- Claim C4: when getBars is called with the lastdate argument undefined,
the outgoing lastdate query parameter equals the current time serialized as
an ISO-8601 timestamp (new Date().toISOString() at call time, modeled by
the explicit now argument); when lastdate is supplied, it is passed through
unchanged. -/
theorem getBars_lastdate_default (token symbol now : String)
    (interval unit barsback firstdate sessiontemplate : JSValue) :
    (MarketData.getBars_request token symbol interval unit barsback firstdate
        .undef sessiontemplate now).param "lastdate" = some (.str now) ∧
    (∀ v : JSValue, v ≠ .undef →
      (MarketData.getBars_request token symbol interval unit barsback firstdate
          v sessiontemplate now).param "lastdate" = some v) := by
  constructor
  · rfl
  · intro v hv
    have h1 : (MarketData.getBars_request token symbol interval unit barsback firstdate
        v sessiontemplate now).param "lastdate" = some (jsDefault v (.str now)) := rfl
    rw [h1, jsDefault_of_ne_undef v _ hv]

/-- Witness for C4 at concrete inputs: the default branch and the
pass-through branch both evaluated. -/
theorem getBars_lastdate_default_witness :
    (MarketData.getBars_request "tok" "MSFT" .undef .undef .undef .undef
        (.str "2024-01-02") (.undef) "2024-01-15T00:00:00.000Z").param "lastdate" =
      some (.str "2024-01-02") :=
  (getBars_lastdate_default "tok" "MSFT" "2024-01-15T00:00:00.000Z"
      .undef .undef .undef .undef .undef).2 (.str "2024-01-02") (fun h => JSValue.noConfusion h)

/-- Claim C1 counterexample: getAccounts run against a transport that
returns a 2xx response whose JSON body lacks the expected "Accounts" key
resolves to undefined; the promise does not reject, and no
MalformedResponseError exists anywhere in the source. -/
theorem getAccounts_missing_key_resolves_cex :
    Accounts.getAccounts "tok" (fun _ => .ok (.obj [("data", .obj [])])) =
      .ok JSValue.undef :=
  rfl

/-- Claim C1, amended: for every fetch method with an expected unwrap key,
a 2xx response whose JSON body lacks that key makes the returned promise
resolve to undefined (JavaScript property access on a missing key); the
source defines no MalformedResponseError and never rejects in this case. -/
theorem missing_unwrap_key_resolves_undefined (token a b : String)
    (order body : JSValue) (tr : Transport)
    (htr : ∀ r, tr r = .ok (.obj [("data", body)]))
    (hmiss : ∀ k, body.hasField k = false) :
    Accounts.getAccounts token tr = .ok .undef ∧
    Accounts.getAccountBalances token a tr = .ok .undef ∧
    Accounts.getBalancesBOD token a tr = .ok .undef ∧
    Accounts.getOrders token a .undef .undef tr = .ok .undef ∧
    Accounts.getOrdersByOrderID token a b tr = .ok .undef ∧
    Accounts.getPositions token a .undef tr = .ok .undef ∧
    Accounts.getWallets token a tr = .ok .undef ∧
    Orders.confirmOrder token order tr = .ok .undef ∧
    Orders.confirmGroupOrder token order tr = .ok .undef ∧
    Orders.placeGroupOrder token order tr = .ok .undef ∧
    Orders.placeOrder token order tr = .ok .undef ∧
    Orders.getActivationTriggers token tr = .ok .undef ∧
    Orders.getRoutes token tr = .ok .undef ∧
    MarketData.getCryptoSymbolNames token tr = .ok .undef ∧
    MarketData.getOptionExpirations token a .undef tr = .ok .undef ∧
    MarketData.getOptionSpreadTypes token tr = .ok .undef := by
  have hb : ∀ k, body.getField k = JSValue.undef :=
    fun k => getField_of_not_hasField body k (hmiss k)
  refine ⟨?_, ?_, ?_, ?_, ?_, ?_, ?_, ?_, ?_, ?_, ?_, ?_, ?_, ?_, ?_, ?_⟩ <;>
    simp [Accounts.getAccounts, Accounts.getAccountBalances, Accounts.getBalancesBOD,
      Accounts.getOrders, Accounts.getOrdersByOrderID, Accounts.getPositions,
      Accounts.getWallets, Orders.confirmOrder, Orders.confirmGroupOrder,
      Orders.placeGroupOrder, Orders.placeOrder, Orders.getActivationTriggers,
      Orders.getRoutes, MarketData.getCryptoSymbolNames, MarketData.getOptionExpirations,
      MarketData.getOptionSpreadTypes, axiosCall_ok htr, getField_data_singleton, hb]

/-- Witness for C1 amended, applying the theorem to an empty body object. -/
theorem missing_unwrap_key_resolves_undefined_witness :
    Accounts.getAccountBalances "tok" "A1"
        (fun _ => .ok (.obj [("data", .obj [])])) = .ok JSValue.undef :=
  (missing_unwrap_key_resolves_undefined "tok" "A1" "O1" .undef (.obj [])
      (fun _ => .ok (.obj [("data", .obj [])])) (fun _ => rfl) (fun _ => rfl)).2.1

/-- Claim C2 counterexample: getHistoricalOrdersByOrderID called without a
since argument interpolates undefined into the URL template, so the
outgoing query string carries the literal value "undefined". -/
theorem historicalOrdersByOrderID_since_undefined_cex :
    (Accounts.getHistoricalOrdersByOrderID_request "tok" "A1" "O7" .undef).url =
      "https://api.tradestation.com/v3/brokerage/accounts/A1/historicalorders/O7?since=undefined" :=
  rfl

/-- Claim C2, amended: optional parameters passed through the axios params
map are dropped from the outgoing query string when the caller omits them
(axios omits undefined and null values), so they never appear as the
literal string "undefined"; the exception is getHistoricalOrdersByOrderID,
which interpolates since directly into the URL template and therefore sends
since=undefined when since is omitted. -/
theorem omitted_optionals_query_serialization (token a sym leg now : String) :
    (Accounts.getHistoricalOrders_request token a .undef .undef .undef).effectiveQuery =
      [("pageSize", "600")] ∧
    (Accounts.getOrders_request token a .undef .undef).effectiveQuery =
      [("pageSize", "600")] ∧
    (Accounts.getPositions_request token a .undef).effectiveQuery = [] ∧
    (MarketData.getOptionExpirations_request token a .undef).effectiveQuery = [] ∧
    (Symbols.suggestSymbols_request token sym .undef .undef).effectiveQuery = [] ∧
    (MarketData.getBars_request token sym .undef .undef .undef .undef .undef
        .undef now).effectiveQuery =
      [("interval", "1"), ("unit", "Daily"), ("barsback", "1"), ("lastdate", now)] ∧
    (MarketData.streamBars_request token sym .undef .undef .undef .undef).effectiveQuery =
      [("interval", "1"), ("unit", "Daily"), ("barsback", "1")] ∧
    (MarketData.streamOptionChain_request token sym .undef .undef .undef .undef
        .undef .undef .undef .undef .undef .undef).effectiveQuery =
      [("strikeProximity", "5"), ("spreadType", "Single"), ("strikeInterval", "1"),
       ("enableGreeks", "true"), ("strikeRange", "All"), ("optionType", "All")] ∧
    (MarketData.streamOptionQuotes_request token (.str leg) .undef .undef
        .undef).effectiveQuery =
      [("legs[0].Symbol", leg), ("legs[0].Ratio", "1"), ("enableGreeks", "true")] ∧
    (Accounts.getHistoricalOrdersByOrderID_request token "A1" "O7" .undef).url =
      Accounts.baseUrl ++ "/accounts/A1/historicalorders/O7?since=undefined" :=
  ⟨rfl, rfl, rfl, rfl, rfl, rfl, rfl, rfl, rfl, rfl⟩

/-- Claim C3 counterexample: the streaming method streamOrdersByOrderId
issues its request without the streams Accept header and without
responseType stream, and its success handler materializes
response.data.Orders instead of exposing the stream. -/
theorem streamOrdersByOrderId_not_stream_cex :
    (Accounts.streamOrdersByOrderId_request "tok" "A1" "O7").responseType = none ∧
    (Accounts.streamOrdersByOrderId_request "tok" "A1" "O7").headers =
      [("Authorization", "Bearer tok")] ∧
    Accounts.streamOrdersByOrderId "tok" "A1" "O7"
        (fun _ => .ok (.obj [("data", .obj [("Orders", .str "payload")])])) =
      .ok (.str "payload") :=
  ⟨rfl, rfl, rfl⟩

/-- Claim C3, amended: only streamWallets, streamBars, streamOptionChain,
streamOptionQuotes, streamQuoteChanges, streamMarketDepthQuotes and
streamMarketDepthAggregates carry the Accept header
application/vnd.tradestation.streams.v2+json together with responseType
stream and expose the open stream to the caller (as response.data or as the
whole response object).  streamOrders, streamOrdersByOrderId,
streamPositions and streamTickBars send no streams Accept header; of these
only streamOrders sets responseType stream, and it resolves to undefined;
streamOrdersByOrderId resolves to the materialized response.data.Orders,
and streamPositions and streamTickBars resolve to response.data. -/
theorem stream_methods_transport_contract (token a sym : String)
    (v w x y z u q p : JSValue) (resp : JSValue) :
    (Accounts.streamWallets_request token a).headers =
      [("Authorization", "Bearer " ++ token),
       ("Accept", "application/vnd.tradestation.streams.v2+json")] ∧
    (Accounts.streamWallets_request token a).responseType = some "stream" ∧
    Accounts.streamWallets token a (fun _ => .ok resp) = .ok (resp.getField "data") ∧
    (MarketData.streamBars_request token sym v w x y).headers =
      [("Authorization", "Bearer " ++ token),
       ("Accept", "application/vnd.tradestation.streams.v2+json")] ∧
    (MarketData.streamBars_request token sym v w x y).responseType = some "stream" ∧
    MarketData.streamBars token sym v w x y (fun _ => .ok resp) = .ok resp ∧
    (MarketData.streamOptionChain_request token sym v w x y z u q p v w).headers =
      [("Authorization", "Bearer " ++ token),
       ("Accept", "application/vnd.tradestation.streams.v2+json")] ∧
    (MarketData.streamOptionChain_request token sym v w x y z u q p v w).responseType =
      some "stream" ∧
    MarketData.streamOptionChain token sym v w x y z u q p v w (fun _ => .ok resp) =
      .ok resp ∧
    (MarketData.streamOptionQuotes_request token v w x y).headers =
      [("Authorization", "Bearer " ++ token),
       ("Accept", "application/vnd.tradestation.streams.v2+json")] ∧
    (MarketData.streamOptionQuotes_request token v w x y).responseType = some "stream" ∧
    MarketData.streamOptionQuotes token v w x y (fun _ => .ok resp) = .ok resp ∧
    (MarketData.streamQuoteChanges_request token sym).headers =
      [("Authorization", "Bearer " ++ token),
       ("Accept", "application/vnd.tradestation.streams.v2+json")] ∧
    (MarketData.streamQuoteChanges_request token sym).responseType = some "stream" ∧
    MarketData.streamQuoteChanges token sym (fun _ => .ok resp) = .ok resp ∧
    (MarketData.streamMarketDepthQuotes_request token sym v).headers =
      [("Authorization", "Bearer " ++ token),
       ("Accept", "application/vnd.tradestation.streams.v2+json")] ∧
    (MarketData.streamMarketDepthQuotes_request token sym v).responseType = some "stream" ∧
    MarketData.streamMarketDepthQuotes token sym v (fun _ => .ok resp) = .ok resp ∧
    (MarketData.streamMarketDepthAggregates_request token sym v).headers =
      [("Authorization", "Bearer " ++ token),
       ("Accept", "application/vnd.tradestation.streams.v2+json")] ∧
    (MarketData.streamMarketDepthAggregates_request token sym v).responseType =
      some "stream" ∧
    MarketData.streamMarketDepthAggregates token sym v (fun _ => .ok resp) = .ok resp ∧
    (Accounts.streamOrders_request token a).headers =
      [("Authorization", "Bearer " ++ token)] ∧
    (Accounts.streamOrders_request token a).responseType = some "stream" ∧
    Accounts.streamOrders token a (fun _ => .ok resp) = .ok JSValue.undef ∧
    (Accounts.streamOrdersByOrderId_request token a sym).headers =
      [("Authorization", "Bearer " ++ token)] ∧
    (Accounts.streamOrdersByOrderId_request token a sym).responseType = none ∧
    (Accounts.streamPositions_request token a v).headers =
      [("Authorization", "Bearer " ++ token)] ∧
    (Accounts.streamPositions_request token a v).responseType = none ∧
    Accounts.streamPositions token a v (fun _ => .ok resp) = .ok (resp.getField "data") ∧
    (MarketData.streamTickBars_request token sym v w).headers =
      [("Authorization", "Bearer " ++ token)] ∧
    (MarketData.streamTickBars_request token sym v w).responseType = none ∧
    MarketData.streamTickBars token sym v w (fun _ => .ok resp) =
      .ok (resp.getField "data") :=
  ⟨rfl, rfl, rfl, rfl, rfl, rfl, rfl, rfl, rfl, rfl, rfl, rfl, rfl, rfl, rfl, rfl,
   rfl, rfl, rfl, rfl, rfl, rfl, rfl, rfl, rfl, rfl, rfl, rfl, rfl, rfl, rfl, rfl⟩

/-- Claim C7: calls omitting defaulted parameters use exactly the defaults
the source specifies: bar interval "1" and unit "Daily" (getBars,
streamBars), pageSize 600 (getHistoricalOrders, getOrders), maxlevels 20
(streamMarketDepthQuotes, streamMarketDepthAggregates), strikeInterval 1,
enableGreeks true, strikeRange "All", optionType "All" (streamOptionChain),
and spreadType "Single" (getOptionStrikes, streamOptionChain). -/
theorem default_parameter_values (token a sym now : String) :
    (MarketData.getBars_request token sym .undef .undef .undef .undef .undef
        .undef now).param "interval" = some (.str "1") ∧
    (MarketData.getBars_request token sym .undef .undef .undef .undef .undef
        .undef now).param "unit" = some (.str "Daily") ∧
    (MarketData.streamBars_request token sym .undef .undef .undef .undef).param
      "interval" = some (.str "1") ∧
    (MarketData.streamBars_request token sym .undef .undef .undef .undef).param
      "unit" = some (.str "Daily") ∧
    (Accounts.getHistoricalOrders_request token a .undef .undef .undef).param
      "pageSize" = some (.num 600) ∧
    (Accounts.getOrders_request token a .undef .undef).param "pageSize" =
      some (.num 600) ∧
    (MarketData.streamMarketDepthQuotes_request token sym .undef).param "maxlevels" =
      some (.num 20) ∧
    (MarketData.streamMarketDepthAggregates_request token sym .undef).param
      "maxlevels" = some (.num 20) ∧
    (MarketData.getOptionStrikes_request token sym .undef .undef .undef .undef).param
      "spreadType" = some (.str "Single") ∧
    (MarketData.getOptionStrikes_request token sym .undef .undef .undef .undef).param
      "strikeInterval" = some (.num 1) ∧
    (MarketData.streamOptionChain_request token sym .undef .undef .undef .undef
        .undef .undef .undef .undef .undef .undef).param "spreadType" =
      some (.str "Single") ∧
    (MarketData.streamOptionChain_request token sym .undef .undef .undef .undef
        .undef .undef .undef .undef .undef .undef).param "strikeInterval" =
      some (.num 1) ∧
    (MarketData.streamOptionChain_request token sym .undef .undef .undef .undef
        .undef .undef .undef .undef .undef .undef).param "enableGreeks" =
      some (.boolv true) ∧
    (MarketData.streamOptionChain_request token sym .undef .undef .undef .undef
        .undef .undef .undef .undef .undef .undef).param "strikeRange" =
      some (.str "All") ∧
    (MarketData.streamOptionChain_request token sym .undef .undef .undef .undef
        .undef .undef .undef .undef .undef .undef).param "optionType" =
      some (.str "All") :=
  ⟨rfl, rfl, rfl, rfl, rfl, rfl, rfl, rfl, rfl, rfl, rfl, rfl, rfl, rfl, rfl⟩

/-- Claim C9: every request issued by any method of any class (Accounts,
Orders, MarketData, Symbols) carries the header Authorization with value
Bearer followed by the token the class instance was constructed with. -/
theorem all_requests_carry_bearer_token (token a b sym now : String)
    (v w x y z u q p : JSValue) :
    ("Authorization", "Bearer " ++ token) ∈ (Accounts.getAccounts_request token).headers ∧
    ("Authorization", "Bearer " ++ token) ∈ (Accounts.getAccountBalances_request token a).headers ∧
    ("Authorization", "Bearer " ++ token) ∈ (Accounts.getBalancesBOD_request token a).headers ∧
    ("Authorization", "Bearer " ++ token) ∈ (Accounts.getHistoricalOrders_request token a v w x).headers ∧
    ("Authorization", "Bearer " ++ token) ∈ (Accounts.getHistoricalOrdersByOrderID_request token a b v).headers ∧
    ("Authorization", "Bearer " ++ token) ∈ (Accounts.getOrders_request token a v w).headers ∧
    ("Authorization", "Bearer " ++ token) ∈ (Accounts.getOrdersByOrderID_request token a b).headers ∧
    ("Authorization", "Bearer " ++ token) ∈ (Accounts.getPositions_request token a v).headers ∧
    ("Authorization", "Bearer " ++ token) ∈ (Accounts.getWallets_request token a).headers ∧
    ("Authorization", "Bearer " ++ token) ∈ (Accounts.streamWallets_request token a).headers ∧
    ("Authorization", "Bearer " ++ token) ∈ (Accounts.streamOrders_request token a).headers ∧
    ("Authorization", "Bearer " ++ token) ∈ (Accounts.streamOrdersByOrderId_request token a b).headers ∧
    ("Authorization", "Bearer " ++ token) ∈ (Accounts.streamPositions_request token a v).headers ∧
    ("Authorization", "Bearer " ++ token) ∈ (Orders.confirmOrder_request token v).headers ∧
    ("Authorization", "Bearer " ++ token) ∈ (Orders.confirmGroupOrder_request token v).headers ∧
    ("Authorization", "Bearer " ++ token) ∈ (Orders.placeGroupOrder_request token v).headers ∧
    ("Authorization", "Bearer " ++ token) ∈ (Orders.placeOrder_request token v).headers ∧
    ("Authorization", "Bearer " ++ token) ∈ (Orders.replaceOrder_request token a v).headers ∧
    ("Authorization", "Bearer " ++ token) ∈ (Orders.getActivationTriggers_request token).headers ∧
    ("Authorization", "Bearer " ++ token) ∈ (Orders.getRoutes_request token).headers ∧
    ("Authorization", "Bearer " ++ token) ∈ (Symbols.suggestSymbols_request token sym v w).headers ∧
    ("Authorization", "Bearer " ++ token) ∈ (Symbols.searchSymbols_request token a).headers ∧
    ("Authorization", "Bearer " ++ token) ∈ (MarketData.getBars_request token sym v w x y z u now).headers ∧
    ("Authorization", "Bearer " ++ token) ∈ (MarketData.streamBars_request token sym v w x y).headers ∧
    ("Authorization", "Bearer " ++ token) ∈ (MarketData.getCryptoSymbolNames_request token).headers ∧
    ("Authorization", "Bearer " ++ token) ∈ (MarketData.getSymbolDetails_request token sym).headers ∧
    ("Authorization", "Bearer " ++ token) ∈ (MarketData.getOptionExpirations_request token sym v).headers ∧
    ("Authorization", "Bearer " ++ token) ∈ (MarketData.getOptionRiskReward_request token v).headers ∧
    ("Authorization", "Bearer " ++ token) ∈ (MarketData.getOptionSpreadTypes_request token).headers ∧
    ("Authorization", "Bearer " ++ token) ∈ (MarketData.getOptionStrikes_request token sym v w x y).headers ∧
    ("Authorization", "Bearer " ++ token) ∈ (MarketData.streamOptionChain_request token sym v w x y z u q p v w).headers ∧
    ("Authorization", "Bearer " ++ token) ∈ (MarketData.streamOptionQuotes_request token v w x y).headers ∧
    ("Authorization", "Bearer " ++ token) ∈ (MarketData.getQuoteSnapshots_request token sym).headers ∧
    ("Authorization", "Bearer " ++ token) ∈ (MarketData.streamQuoteChanges_request token sym).headers ∧
    ("Authorization", "Bearer " ++ token) ∈ (MarketData.streamMarketDepthQuotes_request token sym v).headers ∧
    ("Authorization", "Bearer " ++ token) ∈ (MarketData.streamMarketDepthAggregates_request token sym v).headers ∧
    ("Authorization", "Bearer " ++ token) ∈ (MarketData.streamTickBars_request token sym v w).headers := by
  simp [Accounts.getAccounts_request, Accounts.getAccountBalances_request,
    Accounts.getBalancesBOD_request, Accounts.getHistoricalOrders_request,
    Accounts.getHistoricalOrdersByOrderID_request, Accounts.getOrders_request,
    Accounts.getOrdersByOrderID_request, Accounts.getPositions_request,
    Accounts.getWallets_request, Accounts.streamWallets_request,
    Accounts.streamOrders_request, Accounts.streamOrdersByOrderId_request,
    Accounts.streamPositions_request, Orders.confirmOrder_request,
    Orders.confirmGroupOrder_request, Orders.placeGroupOrder_request,
    Orders.placeOrder_request, Orders.replaceOrder_request,
    Orders.getActivationTriggers_request, Orders.getRoutes_request,
    Symbols.suggestSymbols_request, Symbols.searchSymbols_request,
    MarketData.getBars_request, MarketData.streamBars_request,
    MarketData.getCryptoSymbolNames_request, MarketData.getSymbolDetails_request,
    MarketData.getOptionExpirations_request, MarketData.getOptionRiskReward_request,
    MarketData.getOptionSpreadTypes_request, MarketData.getOptionStrikes_request,
    MarketData.streamOptionChain_request, MarketData.streamOptionQuotes_request,
    MarketData.getQuoteSnapshots_request, MarketData.streamQuoteChanges_request,
    MarketData.streamMarketDepthQuotes_request,
    MarketData.streamMarketDepthAggregates_request, MarketData.streamTickBars_request]

/-- Claim C8: for every method, if the underlying HTTP call fails
(transport error or non-2xx status), the returned promise rejects: the
error is surfaced to the caller after any diagnostic side effect — either
rethrown unchanged or wrapped in a new Error with a templated message —
and never swallowed, recovered, or retried. -/
theorem transport_failure_always_rejects (token a b sym now : String)
    (v w x y z u q p : JSValue) (tr : Transport) (e : JSError)
    (h : ∀ r, tr r = .error e) :
    Accounts.getAccounts token tr = .error e ∧
    Accounts.getAccountBalances token a tr = .error e ∧
    Accounts.getBalancesBOD token a tr = .error e ∧
    Accounts.getHistoricalOrders token a v w x tr = .error e ∧
    Accounts.getHistoricalOrdersByOrderID token a b v tr = .error e ∧
    Accounts.getOrders token a v w tr = .error e ∧
    Accounts.getOrdersByOrderID token a b tr = .error e ∧
    Accounts.getPositions token a v tr = .error e ∧
    Accounts.getWallets token a tr = .error e ∧
    Accounts.streamWallets token a tr = .error e ∧
    Accounts.streamOrders token a tr = .error e ∧
    Accounts.streamOrdersByOrderId token a b tr = .error e ∧
    Accounts.streamPositions token a v tr = .error e ∧
    Orders.confirmOrder token v tr = .error e ∧
    Orders.confirmGroupOrder token v tr = .error e ∧
    Orders.placeGroupOrder token v tr = .error e ∧
    Orders.placeOrder token v tr = .error e ∧
    Orders.replaceOrder token a v tr = .error e ∧
    Orders.getActivationTriggers token tr = .error e ∧
    Orders.getRoutes token tr = .error e ∧
    Symbols.suggestSymbols token sym v w tr = .error e ∧
    Symbols.searchSymbols token a tr = .error e ∧
    MarketData.getBars token sym v w x y z u now tr =
      .error { message := "Error fetching bars: " ++ e.message } ∧
    MarketData.streamBars token sym v w x y tr = .error e ∧
    MarketData.getCryptoSymbolNames token tr =
      .error { message := "Error fetching crypto symbol names: " ++ e.message } ∧
    MarketData.getSymbolDetails token sym tr =
      .error { message := "Error fetching symbol details: " ++ e.message } ∧
    MarketData.getOptionExpirations token sym v tr =
      .error { message := "Error fetching option expirations: " ++ e.message } ∧
    MarketData.getOptionRiskReward token v tr =
      .error { message := "Error analyzing option risk vs. reward: " ++ e.message } ∧
    MarketData.getOptionSpreadTypes token tr =
      .error { message := "Error fetching option spread types: " ++ e.message } ∧
    MarketData.getOptionStrikes token sym v w x y tr =
      .error { message := "Error fetching option strikes: " ++ e.message } ∧
    MarketData.streamOptionChain token sym v w x y z u q p v w tr = .error e ∧
    MarketData.streamOptionQuotes token v w x y tr = .error e ∧
    MarketData.getQuoteSnapshots token sym tr = .error e ∧
    MarketData.streamQuoteChanges token sym tr = .error e ∧
    MarketData.streamMarketDepthQuotes token sym v tr = .error e ∧
    MarketData.streamMarketDepthAggregates token sym v tr = .error e ∧
    MarketData.streamTickBars token sym v w tr = .error e := by
  refine ⟨?_, ?_, ?_, ?_, ?_, ?_, ?_, ?_, ?_, ?_, ?_, ?_, ?_, ?_, ?_, ?_, ?_, ?_, ?_,
    ?_, ?_, ?_, ?_, ?_, ?_, ?_, ?_, ?_, ?_, ?_, ?_, ?_, ?_, ?_, ?_, ?_, ?_⟩ <;>
    simp [Accounts.getAccounts, Accounts.getAccountBalances, Accounts.getBalancesBOD,
      Accounts.getHistoricalOrders, Accounts.getHistoricalOrdersByOrderID,
      Accounts.getOrders, Accounts.getOrdersByOrderID, Accounts.getPositions,
      Accounts.getWallets, Accounts.streamWallets, Accounts.streamOrders,
      Accounts.streamOrdersByOrderId, Accounts.streamPositions,
      Orders.confirmOrder, Orders.confirmGroupOrder, Orders.placeGroupOrder,
      Orders.placeOrder, Orders.replaceOrder, Orders.getActivationTriggers,
      Orders.getRoutes, Symbols.suggestSymbols, Symbols.searchSymbols,
      MarketData.getBars, MarketData.streamBars, MarketData.getCryptoSymbolNames,
      MarketData.getSymbolDetails, MarketData.getOptionExpirations,
      MarketData.getOptionRiskReward, MarketData.getOptionSpreadTypes,
      MarketData.getOptionStrikes, MarketData.streamOptionChain,
      MarketData.streamOptionQuotes, MarketData.getQuoteSnapshots,
      MarketData.streamQuoteChanges, MarketData.streamMarketDepthQuotes,
      MarketData.streamMarketDepthAggregates, MarketData.streamTickBars,
      axiosCall_error h]

/-- Witness for C8 against a transport that fails every request. -/
theorem transport_failure_always_rejects_witness :
    Accounts.getAccounts "tok" (fun _ => .error { message := "boom" }) =
      .error { message := "boom" } :=
  (transport_failure_always_rejects "tok" "a" "b" "s" "n"
      .undef .undef .undef .undef .undef .undef .undef .undef
      (fun _ => .error { message := "boom" }) { message := "boom" }
      (fun _ => rfl)).1
